import Mathlib

/-!
Verification of the two notebooks in this repository: the agent-graph
notebook (tool function `add`, message state, conditional routing to a
tool node) and the pydantic notebook (field-constrained models, custom
validators, nested model composition).  Python code is shallowly
embedded: validators become functions into `Except`, pydantic models
become structures, and the validation pipeline becomes an explicit
error-collecting function.
-/

deriving instance DecidableEq for Except

namespace Pyd

/-- Embedding of the character class `[^@]` of the notebook's email
regex: every character of the list is distinct from the at sign. -/
def noAt (cs : List Char) : Bool := cs.all (fun c => c ≠ '@')

/-- Matches the regex fragment `\.[^@]+` against a whole list: a dot
followed by a nonempty run of non-at characters. -/
def dotTail : List Char → Bool
  | [] => false
  | c :: cs => c = '.' && !cs.isEmpty && noAt cs

/-- Matches the regex fragment `[^@]+\.[^@]+` against a whole list. -/
def tailMatch : List Char → Bool
  | [] => false
  | c :: cs => c ≠ '@' && (dotTail cs || tailMatch cs)

/-- Matches `@` followed by `[^@]+\.[^@]+`. -/
def atTail : List Char → Bool
  | [] => false
  | c :: cs => c = '@' && tailMatch cs

/-- Executable embedding of `re.match(r'^[^@]+@[^@]+\.[^@]+$', v)` from
the `validate_email` validator of `UserProfile` (an anchored match of
the full string; a trailing newline tolerated by Python's `$` is itself
a `[^@]` character, so anchored-at-both-ends matching coincides with
full-string matching for this pattern). -/
def emailMatchL : List Char → Bool
  | [] => false
  | c :: cs => c ≠ '@' && (atTail cs || emailMatchL cs)

/-- The email pattern read declaratively, following the regex
`^[^@]+@[^@]+\.[^@]+$` word for word: the string splits into a nonempty
at-free part, an at sign, a nonempty at-free part, a dot, and a nonempty
at-free part. -/
def EmailShape (cs : List Char) : Prop :=
  ∃ u v w : List Char,
    cs = u ++ '@' :: (v ++ '.' :: w) ∧
    u ≠ [] ∧ v ≠ [] ∧ w ≠ [] ∧
    (∀ a ∈ u, a ≠ '@') ∧ (∀ a ∈ v, a ≠ '@') ∧ (∀ a ∈ w, a ≠ '@')

/-- String-level form of the email matcher used by the validator. -/
def emailMatch (s : String) : Bool := emailMatchL s.toList

/-- Embedding of Python's `str.isalnum()` as used by `validate_username`:
true exactly when the string is nonempty and every character is
alphanumeric. -/
def pyIsAlnum (s : String) : Bool :=
  !s.toList.isEmpty && s.toList.all Char.isAlphanum

/-- Embedding of the `validate_email` field validator of `UserProfile`:
`if not re.match(r'^[^@]+@[^@]+\.[^@]+$', v): raise ValueError('Invalid
email format'); return v`. -/
def validate_email (v : String) : Except String String :=
  if emailMatch v then Except.ok v else Except.error "Invalid email format"

/-- Embedding of the `validate_username` field validator of
`UserProfile`: `if not v.isalnum(): raise ValueError('Username must be
alphanumeric'); return v`. -/
def validate_username (v : String) : Except String String :=
  if pyIsAlnum v then Except.ok v else Except.error "Username must be alphanumeric"

/-- The violation kinds pydantic reports for the constraints declared on
`UserProfile` (`string_too_short`, `string_too_long` for `min_length` /
`max_length`, `value_error` for a `ValueError` raised by a custom
validator, `greater_than_equal` / `less_than_equal` for `ge` / `le`). -/
inductive ErrKind where
  | string_too_short
  | string_too_long
  | value_error
  | greater_than_equal
  | less_than_equal
deriving DecidableEq, Repr

/-- The offending input value attached to a validation error. -/
inductive InputVal where
  | s (v : String)
  | i (v : Int)
deriving DecidableEq, Repr

/-- One field-level violation inside an aggregated validation error. -/
structure FieldError where
  field : String
  kind : ErrKind
  input : InputVal
deriving DecidableEq, Repr

/-- The `UserProfile` model of the pydantic notebook. -/
structure UserProfile where
  username : String
  email : String
  password : String
  age : Int
deriving DecidableEq, Repr

/-- Validation of the `username` field: `Field(..., min_length=3,
max_length=20)`, then the after-mode `validate_username` validator,
which pydantic runs only when the built-in constraints pass. -/
def usernameField (v : String) : Except FieldError String :=
  if v.length < 3 then Except.error ⟨"username", ErrKind.string_too_short, InputVal.s v⟩
  else if 20 < v.length then Except.error ⟨"username", ErrKind.string_too_long, InputVal.s v⟩
  else match validate_username v with
    | Except.ok r => Except.ok r
    | Except.error _ => Except.error ⟨"username", ErrKind.value_error, InputVal.s v⟩

/-- Validation of the `email` field: no built-in constraints, then the
after-mode `validate_email` validator. -/
def emailField (v : String) : Except FieldError String :=
  match validate_email v with
  | Except.ok r => Except.ok r
  | Except.error _ => Except.error ⟨"email", ErrKind.value_error, InputVal.s v⟩

/-- Validation of the `password` field: `Field(..., min_length=8)`. -/
def passwordField (v : String) : Except FieldError String :=
  if v.length < 8 then Except.error ⟨"password", ErrKind.string_too_short, InputVal.s v⟩
  else Except.ok v

/-- Validation of the `age` field: `Field(..., ge=13, le=120)`. -/
def ageField (v : Int) : Except FieldError Int :=
  if v < 13 then Except.error ⟨"age", ErrKind.greater_than_equal, InputVal.i v⟩
  else if 120 < v then Except.error ⟨"age", ErrKind.less_than_equal, InputVal.i v⟩
  else Except.ok v

/-- The errors contributed by one field result. -/
def errsOf {α : Type} : Except FieldError α → List FieldError
  | Except.ok _ => []
  | Except.error e => [e]

/-- Construction of a `UserProfile`: pydantic validates every field,
collects the violations in field-declaration order, and either returns
the instance or raises one `ValidationError` aggregating all of them. -/
def UserProfile.validate (username email password : String) (age : Int) :
    Except (List FieldError) UserProfile :=
  match usernameField username, emailField email, passwordField password, ageField age with
  | Except.ok u, Except.ok e, Except.ok p, Except.ok a => Except.ok ⟨u, e, p, a⟩
  | ru, re, rp, ra => Except.error (errsOf ru ++ errsOf re ++ errsOf rp ++ errsOf ra)

end Pyd


namespace Pyd

/-- A Python value handed to pydantic at construction time (`None`,
bool, int, float, str, list, dict).  Floats are represented exactly as
rationals; the values appearing in the notebook are small integers, so
the representation is exact. -/
inductive Value where
  | none
  | bool (b : Bool)
  | int (n : Int)
  | float (q : Rat)
  | str (s : String)
  | list (xs : List Value)
  | dict (fields : List (String × Value))

/-- pydantic validation of a `str` field: only a string is accepted
(numbers are not coerced to `str`). -/
def asStr : Value → Except String String
  | Value.str s => Except.ok s
  | _ => Except.error "string_type"

/-- pydantic validation of a `float` field: a float is taken as is and
an int is coerced to the numerically equal float (`30000` becomes
`30000.0`). -/
def asFloat : Value → Except String Rat
  | Value.float q => Except.ok q
  | Value.int n => Except.ok (n : Rat)
  | _ => Except.error "float_type"

/-- pydantic validation of an `int` field. -/
def asInt : Value → Except String Int
  | Value.int n => Except.ok n
  | _ => Except.error "int_type"

/-- pydantic validation of a `bool` field. -/
def asBool : Value → Except String Bool
  | Value.bool b => Except.ok b
  | _ => Except.error "bool_type"

/-- pydantic validation of an `Optional[float]` field: `None` is
admitted, anything else must validate as a float. -/
def asOptFloat : Value → Except String (Option Rat)
  | Value.none => Except.ok Option.none
  | v => (asFloat v).map some

/-- pydantic validation of an `Optional[bool]` field. -/
def asOptBool : Value → Except String (Option Bool)
  | Value.none => Except.ok Option.none
  | v => (asBool v).map some

/-- Elementwise validation of a `List[str]` field body. -/
def strList : List Value → Except String (List String)
  | [] => Except.ok []
  | v :: vs =>
    match asStr v, strList vs with
    | Except.ok s, Except.ok ss => Except.ok (s :: ss)
    | _, _ => Except.error "string_type"

/-- pydantic validation of a `List[str]` field. -/
def asStrList : Value → Except String (List String)
  | Value.list xs => strList xs
  | _ => Except.error "list_type"

/-- Reading a key out of a Python dict literal (first binding wins, as
dict literals have unique keys). -/
def lookup (fields : List (String × Value)) (k : String) : Option Value :=
  (fields.find? (fun p => p.fst = k)).map Prod.snd

/-- A keyword argument that the declaration requires: absent means the
field is missing and construction fails. -/
def requiredField {α : Type} (f : Value → Except String α) :
    Option Value → Except String α
  | Option.none => Except.error "missing"
  | some v => f v

/-- A keyword argument with a declared default: absent means the default
is used. -/
def optionalField {α : Type} (f : Value → Except String α) (dflt : α) :
    Option Value → Except String α
  | Option.none => Except.ok dflt
  | some v => f v

end Pyd

namespace Opt

/-- The first `Employee` model of the pydantic notebook: `id: int`,
`name: str`, `department: str`, `salary: Optional[float] = None`,
`is_active: Optional[bool] = True`.  `Option` on a field value encodes
Python's `Optional`: `some` is a non-`None` value. -/
structure Employee where
  id : Int
  name : String
  department : String
  salary : Option Rat
  is_active : Option Bool
deriving DecidableEq, Repr

/-- Construction of the first `Employee` by keyword arguments (an
argument left out is `Option.none`); pydantic validates each field,
applying the declared defaults `None` and `True`. -/
def Employee.validate (id name department salary is_active : Option Pyd.Value) :
    Except String Employee := do
  let i ← Pyd.requiredField Pyd.asInt id
  let n ← Pyd.requiredField Pyd.asStr name
  let d ← Pyd.requiredField Pyd.asStr department
  let s ← Pyd.optionalField Pyd.asOptFloat Option.none salary
  let a ← Pyd.optionalField Pyd.asOptBool (some true) is_active
  Except.ok ⟨i, n, d, s, a⟩

end Opt

namespace Nested

/-- The `Address` model: four string fields. -/
structure Address where
  street : String
  city : String
  country : String
  zip_code : String
deriving DecidableEq, Repr

/-- Validation of an `Address` from a Python value: a dict whose four
declared keys validate as strings. -/
def Address.validate : Pyd.Value → Except String Address
  | Pyd.Value.dict fs => do
    let street ← Pyd.requiredField Pyd.asStr (Pyd.lookup fs "street")
    let city ← Pyd.requiredField Pyd.asStr (Pyd.lookup fs "city")
    let country ← Pyd.requiredField Pyd.asStr (Pyd.lookup fs "country")
    let z ← Pyd.requiredField Pyd.asStr (Pyd.lookup fs "zip_code")
    Except.ok ⟨street, city, country, z⟩
  | _ => Except.error "model_type"

/-- The `Company` model: `name: str`, `address: Address`,
`employees: List[str]`. -/
structure Company where
  name : String
  address : Address
  employees : List String
deriving DecidableEq, Repr

/-- Validation of a `Company` from a Python value: a dict whose
`address` key is validated recursively against the nested `Address`
schema. -/
def Company.validate : Pyd.Value → Except String Company
  | Pyd.Value.dict fs => do
    let n ← Pyd.requiredField Pyd.asStr (Pyd.lookup fs "name")
    let a ← Pyd.requiredField Address.validate (Pyd.lookup fs "address")
    let es ← Pyd.requiredField Pyd.asStrList (Pyd.lookup fs "employees")
    Except.ok ⟨n, a, es⟩
  | _ => Except.error "model_type"

/-- pydantic validation of an `Optional[Address]` field. -/
def asOptAddress : Pyd.Value → Except String (Option Address)
  | Pyd.Value.none => Except.ok Option.none
  | v => (Address.validate v).map some

/-- The second `Employee` model of the pydantic notebook: `name: str`,
`position: str`, `salary: float`, `company: Company`,
`home_address: Optional[Address] = None`. -/
structure Employee where
  name : String
  position : String
  salary : Rat
  company : Company
  home_address : Option Address
deriving DecidableEq, Repr

/-- Construction of the nested `Employee` by keyword arguments: the
`company` argument is validated recursively against the `Company`
schema, and `home_address` defaults to `None` when omitted. -/
def Employee.validate (name position salary company home_address : Option Pyd.Value) :
    Except String Employee := do
  let n ← Pyd.requiredField Pyd.asStr name
  let p ← Pyd.requiredField Pyd.asStr position
  let s ← Pyd.requiredField Pyd.asFloat salary
  let c ← Pyd.requiredField Company.validate company
  let h ← Pyd.optionalField asOptAddress Option.none home_address
  Except.ok ⟨n, p, s, c, h⟩

/-- The `company_data` dict literal of the notebook's usage example. -/
def company_data : Pyd.Value :=
  Pyd.Value.dict
    [("name", Pyd.Value.str "Tech Corp"),
     ("address", Pyd.Value.dict
       [("street", Pyd.Value.str "123 Tech St"),
        ("city", Pyd.Value.str "San Francisco"),
        ("country", Pyd.Value.str "USA"),
        ("zip_code", Pyd.Value.str "94105")]),
     ("employees", Pyd.Value.list
       [Pyd.Value.str "Alice", Pyd.Value.str "Bob", Pyd.Value.str "Charlie"])]

end Nested

namespace Agent

/-- A tool invocation emitted by the model: tool name and the integer
keyword arguments the bound `add` tool takes. -/
structure ToolCall where
  name : String
  args : List (String × Int)
deriving DecidableEq, Repr

/-- The message kinds flowing through the graph: the notebook's
`HumanMessage`, `AIMessage` (which may carry tool calls), and tool
result messages. -/
inductive Message where
  | human (content : String) (name : Option String)
  | ai (content : String) (name : Option String) (tool_calls : List ToolCall)
  | tool (content : String) (tool_call_id : String)
deriving DecidableEq, Repr

/-- The `State` TypedDict of the agent notebook: a single `messages`
key, annotated with the `add_messages` reducer. -/
structure State where
  messages : List Message
deriving DecidableEq, Repr

/-- Embedding of the notebook's tool function:
`def add(a: int, b: int) -> int: return a+b`. -/
def add (a b : Int) : Int := a + b

/-- Modelled from the spec: the `add_messages` reducer is langgraph
library code, not part of this repository's sources.  The notebook
documents it as appending instead of overriding: "This ensures that any
messages are appended to the existing list of messages." -/
def add_messages (ms : List Message) (m : Message) : List Message :=
  ms ++ [m]

/-- Modelled from the spec: a node's state update flows through the
reducer annotated on the `messages` key, so the update is appended to
the existing list rather than replacing it. -/
def State.applyUpdate (s : State) (m : Message) : State :=
  State.mk (add_messages s.messages m)

/-- The `START` sentinel node name of the graph library. -/
def START : String := "__start__"

/-- The `END` sentinel node name of the graph library. -/
def END : String := "__end__"

/-- Modelled from the spec: `tools_condition` is a langgraph prebuilt,
not part of this repository's sources.  Per the spec, "a routing step
inspects that output to decide whether to forward to a tool-execution
node or terminate": it reads only the latest message and routes to the
`"tools"` node when that model response carries at least one tool call,
and to `END` otherwise. -/
def tools_condition (s : State) : String :=
  match s.messages.getLast? with
  | some (Message.ai _ _ tcs) => if 0 < tcs.length then "tools" else END
  | _ => END

/-- A `StateGraph` builder: the authored node names, the unconditional
edges, and the conditional-edge routing functions keyed by their source
node. -/
structure StateGraphModel where
  nodes : List String
  edges : List (String × String)
  branches : List (String × (State → String))

/-- `StateGraph(State)`: the empty builder. -/
def StateGraph : StateGraphModel := StateGraphModel.mk [] [] []

/-- `builder.add_node(name, fn)` records an authored node. -/
def add_node (g : StateGraphModel) (name : String) : StateGraphModel :=
  { g with nodes := g.nodes ++ [name] }

/-- `builder.add_edge(a, b)` records an unconditional edge. -/
def add_edge (g : StateGraphModel) (a b : String) : StateGraphModel :=
  { g with edges := g.edges ++ [(a, b)] }

/-- `builder.add_conditional_edges(source, path)` records a routing
function out of `source`. -/
def add_conditional_edges (g : StateGraphModel) (src : String)
    (path : State → String) : StateGraphModel :=
  { g with branches := g.branches ++ [(src, path)] }

/-- The second `builder` of the agent notebook:
`add_node("llm_tool", llm_tool)`, `add_node("tools", ToolNode(tools))`,
`add_edge(START, "llm_tool")`,
`add_conditional_edges("llm_tool", tools_condition)`,
`add_edge("tools", END)`. -/
def builder : StateGraphModel :=
  add_edge
    (add_conditional_edges
      (add_edge (add_node (add_node StateGraph "llm_tool") "tools") START "llm_tool")
      "llm_tool" tools_condition)
    "tools" END

/-- `graph_builder = builder.compile()`: compilation keeps the authored
topology. -/
def graph_builder : StateGraphModel := builder

end Agent

namespace Pyd

lemma noAt_iff (cs : List Char) : noAt cs = true ↔ ∀ a ∈ cs, a ≠ '@' := by
  simp [noAt, List.all_eq_true]

lemma dotTail_iff (cs : List Char) :
    dotTail cs = true ↔ ∃ w, cs = '.' :: w ∧ w ≠ [] ∧ ∀ a ∈ w, a ≠ '@' := by
  cases cs with
  | nil =>
    apply iff_of_false (by simp [dotTail])
    rintro ⟨w, hw, -, -⟩
    exact List.noConfusion hw
  | cons c cs =>
    constructor
    · intro h
      simp only [dotTail, Bool.and_eq_true, decide_eq_true_eq,
        Bool.not_eq_true', noAt_iff] at h
      obtain ⟨⟨hc, hne⟩, hall⟩ := h
      subst hc
      refine ⟨cs, rfl, ?_, hall⟩
      cases cs with
      | nil => simp at hne
      | cons x xs => simp
    · rintro ⟨w, hw, hne, hall⟩
      injection hw with h1 h2
      subst h1; subst h2
      cases cs with
      | nil => exact absurd rfl hne
      | cons x xs =>
        simpa [dotTail, noAt_iff] using hall

lemma tailMatch_iff (cs : List Char) :
    tailMatch cs = true ↔
      ∃ v w, cs = v ++ '.' :: w ∧ v ≠ [] ∧ w ≠ [] ∧
        (∀ a ∈ v, a ≠ '@') ∧ (∀ a ∈ w, a ≠ '@') := by
  induction cs with
  | nil =>
    apply iff_of_false (by simp [tailMatch])
    rintro ⟨v, w, hw, hv, -, -, -⟩
    cases v with
    | nil => exact absurd rfl hv
    | cons x xs => exact List.noConfusion hw
  | cons c cs ih =>
    simp only [tailMatch, Bool.and_eq_true, decide_eq_true_eq, Bool.or_eq_true]
    constructor
    · rintro ⟨hc, hrest | hrest⟩
      · obtain ⟨w, rfl, hne, hall⟩ := (dotTail_iff cs).mp hrest
        exact ⟨[c], w, rfl, by simp, hne, by simpa using hc, hall⟩
      · obtain ⟨v, w, rfl, hv, hw, hallv, hallw⟩ := ih.mp hrest
        exact ⟨c :: v, w, rfl, by simp, hw, by
          intro a ha
          rcases List.mem_cons.mp ha with rfl | ha
          · exact hc
          · exact hallv a ha, hallw⟩
    · rintro ⟨v, w, hw, hv, hwne, hallv, hallw⟩
      cases v with
      | nil => exact absurd rfl hv
      | cons x xs =>
        obtain ⟨rfl, rfl⟩ : c = x ∧ cs = xs ++ '.' :: w := by
          injection hw with h1 h2; exact ⟨h1, h2⟩
        refine ⟨hallv _ (by simp), ?_⟩
        cases xs with
        | nil =>
          left
          exact (dotTail_iff ('.' :: w)).mpr ⟨w, rfl, hwne, hallw⟩
        | cons y ys =>
          right
          exact ih.mpr ⟨y :: ys, w, rfl, by simp, hwne,
            fun a ha => hallv a (List.mem_cons_of_mem _ ha), hallw⟩

lemma atTail_iff (cs : List Char) :
    atTail cs = true ↔ ∃ rest, cs = '@' :: rest ∧ tailMatch rest = true := by
  cases cs with
  | nil => simp [atTail]
  | cons c cs =>
    simp only [atTail, Bool.and_eq_true, decide_eq_true_eq]
    constructor
    · rintro ⟨rfl, h⟩; exact ⟨cs, rfl, h⟩
    · rintro ⟨rest, hw, h⟩
      obtain ⟨rfl, rfl⟩ : c = '@' ∧ cs = rest := by
        injection hw with h1 h2; exact ⟨h1, h2⟩
      exact ⟨rfl, h⟩

/-- The executable matcher recognises exactly the declarative reading of
the email regex. -/
lemma emailMatchL_iff_shape (cs : List Char) :
    emailMatchL cs = true ↔ EmailShape cs := by
  induction cs with
  | nil =>
    apply iff_of_false (by simp [emailMatchL])
    rintro ⟨u, v, w, hw, hu, -, -, -, -, -⟩
    cases u with
    | nil => exact absurd rfl hu
    | cons x xs => exact List.noConfusion hw
  | cons c cs ih =>
    simp only [emailMatchL, Bool.and_eq_true, decide_eq_true_eq, Bool.or_eq_true]
    constructor
    · rintro ⟨hc, hrest | hrest⟩
      · obtain ⟨rest, rfl, htm⟩ := (atTail_iff cs).mp hrest
        obtain ⟨v, w, rfl, hv, hwne, hallv, hallw⟩ := (tailMatch_iff rest).mp htm
        exact ⟨[c], v, w, rfl, by simp, hv, hwne, by simpa using hc, hallv, hallw⟩
      · obtain ⟨u, v, w, rfl, hu, hv, hwne, hallu, hallv, hallw⟩ := ih.mp hrest
        exact ⟨c :: u, v, w, rfl, by simp, hv, hwne, by
          intro a ha
          rcases List.mem_cons.mp ha with rfl | ha
          · exact hc
          · exact hallu a ha, hallv, hallw⟩
    · rintro ⟨u, v, w, hw, hu, hv, hwne, hallu, hallv, hallw⟩
      cases u with
      | nil => exact absurd rfl hu
      | cons x xs =>
        obtain ⟨rfl, rfl⟩ : c = x ∧ cs = xs ++ '@' :: (v ++ '.' :: w) := by
          injection hw with h1 h2; exact ⟨h1, h2⟩
        refine ⟨hallu _ (by simp), ?_⟩
        cases xs with
        | nil =>
          left
          exact (atTail_iff _).mpr ⟨v ++ '.' :: w, rfl,
            (tailMatch_iff _).mpr ⟨v, w, rfl, hv, hwne, hallv, hallw⟩⟩
        | cons y ys =>
          right
          exact ih.mpr ⟨y :: ys, v, w, rfl, by simp, hv, hwne,
            fun a ha => hallu a (List.mem_cons_of_mem _ ha), hallv, hallw⟩

lemma usernameField_eq_ok (v r : String) :
    usernameField v = Except.ok r ↔
      (r = v ∧ 3 ≤ v.length ∧ v.length ≤ 20 ∧ pyIsAlnum v = true) := by
  simp only [usernameField, validate_username]
  split_ifs with h1 h2 h3
  · exact iff_of_false (by intro h; simp at h)
      (by rintro ⟨-, h, -, -⟩; omega)
  · exact iff_of_false (by intro h; simp at h)
      (by rintro ⟨-, -, h, -⟩; omega)
  · change Except.ok v = Except.ok r ↔ _
    constructor
    · intro h
      injection h with h
      exact ⟨h.symm, by omega, by omega, h3⟩
    · rintro ⟨rfl, -⟩
      rfl
  · exact iff_of_false (by intro h; simp at h)
      (by rintro ⟨-, -, -, h⟩; exact h3 h)

lemma emailField_eq_ok (v r : String) :
    emailField v = Except.ok r ↔ (r = v ∧ emailMatch v = true) := by
  simp only [emailField, validate_email]
  split_ifs with h
  · change Except.ok v = Except.ok r ↔ _
    constructor
    · intro hr
      injection hr with hr
      exact ⟨hr.symm, h⟩
    · rintro ⟨rfl, -⟩
      rfl
  · exact iff_of_false (by intro hr; simp at hr)
      (by rintro ⟨-, hm⟩; exact h hm)

lemma passwordField_eq_ok (v r : String) :
    passwordField v = Except.ok r ↔ (r = v ∧ 8 ≤ v.length) := by
  simp only [passwordField]
  split_ifs with h
  · exact iff_of_false (by intro hr; simp at hr)
      (by rintro ⟨-, hm⟩; omega)
  · constructor
    · intro hr
      injection hr with hr
      exact ⟨hr.symm, by omega⟩
    · rintro ⟨rfl, -⟩
      rfl

lemma ageField_eq_ok (v r : Int) :
    ageField v = Except.ok r ↔ (r = v ∧ 13 ≤ v ∧ v ≤ 120) := by
  simp only [ageField]
  split_ifs with h1 h2
  · exact iff_of_false (by intro hr; simp at hr)
      (by rintro ⟨-, hm, -⟩; omega)
  · exact iff_of_false (by intro hr; simp at hr)
      (by rintro ⟨-, -, hm⟩; omega)
  · constructor
    · intro hr
      injection hr with hr
      exact ⟨hr.symm, by omega, by omega⟩
    · rintro ⟨rfl, -⟩
      rfl

/-- A successful construction returns exactly the given field values and
succeeds precisely when all declared constraints hold. -/
lemma validate_eq_ok (u e p : String) (a : Int) (prof : UserProfile) :
    UserProfile.validate u e p a = Except.ok prof ↔
      (prof = ⟨u, e, p, a⟩ ∧ 3 ≤ u.length ∧ u.length ≤ 20 ∧ pyIsAlnum u = true ∧
       emailMatch e = true ∧ 8 ≤ p.length ∧ 13 ≤ a ∧ a ≤ 120) := by
  unfold UserProfile.validate
  rcases hu : usernameField u with eu | ru <;>
    rcases he : emailField e with ee | re <;>
      rcases hp : passwordField p with ep | rp <;>
        rcases ha : ageField a with ea | ra <;>
          simp only [hu, he, hp, ha]
  all_goals first
    | (refine iff_of_false (by intro h; simp at h) ?_
       rintro ⟨-, h1, h2, h3, h4, h5, h6, h7⟩
       first
         | (have hcon := (usernameField_eq_ok u u).mpr ⟨rfl, h1, h2, h3⟩
            rw [hu] at hcon
            exact Except.noConfusion hcon)
         | (have hcon := (emailField_eq_ok e e).mpr ⟨rfl, h4⟩
            rw [he] at hcon
            exact Except.noConfusion hcon)
         | (have hcon := (passwordField_eq_ok p p).mpr ⟨rfl, h5⟩
            rw [hp] at hcon
            exact Except.noConfusion hcon)
         | (have hcon := (ageField_eq_ok a a).mpr ⟨rfl, h6, h7⟩
            rw [ha] at hcon
            exact Except.noConfusion hcon))
    | (obtain ⟨rfl, hu3, hu20, hual⟩ := (usernameField_eq_ok u ru).mp hu
       obtain ⟨rfl, hem⟩ := (emailField_eq_ok e re).mp he
       obtain ⟨rfl, hp8⟩ := (passwordField_eq_ok p rp).mp hp
       obtain ⟨rfl, ha13, ha120⟩ := (ageField_eq_ok a ra).mp ha
       constructor
       · intro h
         injection h with h
         exact ⟨h.symm, hu3, hu20, hual, hem, hp8, ha13, ha120⟩
       · rintro ⟨rfl, -⟩
         rfl)

end Pyd

/-- C1: for every graph state whose latest message is a model response,
the routing step after `llm_tool` forwards to the `"tools"` node exactly
when that response carries at least one tool call and terminates
(routes to `END`) when it carries none; the route depends only on the
latest model output. -/
theorem C1_routing_follows_tool_calls (s : Agent.State) (c : String)
    (n : Option String) (tcs : List Agent.ToolCall)
    (h : s.messages.getLast? = some (Agent.Message.ai c n tcs)) :
    (tcs ≠ [] → Agent.tools_condition s = "tools") ∧
    (tcs = [] → Agent.tools_condition s = Agent.END) ∧
    (∀ s' : Agent.State, s'.messages.getLast? = s.messages.getLast? →
      Agent.tools_condition s' = Agent.tools_condition s) := by
  refine ⟨?_, ?_, ?_⟩
  · intro hne
    have hlen : 0 < tcs.length := List.length_pos.mpr hne
    simp [Agent.tools_condition, h, hlen]
  · rintro rfl
    simp [Agent.tools_condition, h]
  · intro s' h'
    unfold Agent.tools_condition
    rw [h']

/-- Witness for C1: a state whose latest model response calls the `add`
tool routes to the tools node. -/
theorem C1_routing_follows_tool_calls_witness :
    Agent.tools_condition (Agent.State.mk
      [Agent.Message.human "What is 2 plus 2" (some "Sai"),
       Agent.Message.ai "" Option.none
         [Agent.ToolCall.mk "add" [("a", 2), ("b", 2)]]]) = "tools" :=
  (C1_routing_follows_tool_calls
    (Agent.State.mk
      [Agent.Message.human "What is 2 plus 2" (some "Sai"),
       Agent.Message.ai "" Option.none
         [Agent.ToolCall.mk "add" [("a", 2), ("b", 2)]]])
    "" Option.none
    [Agent.ToolCall.mk "add" [("a", 2), ("b", 2)]] rfl).1 (by simp)

/-- C2: the tool function supplied by the repository is integer
addition: `add(a, b)` returns `a + b` for every pair of integers. -/
theorem C2_add_is_integer_addition (a b : Int) : Agent.add a b = a + b := rfl

/-- C3: constructing `UserProfile` with `username="ab"`,
`email="invalid-email"`, `password="123"`, `age=200` fails with a single
aggregated error carrying exactly four field violations — string too
short for username, a value error (malformed value) for email, string
too short for password, out of numeric range (`less_than_equal`) for
age — each paired with the offending input value. -/
theorem C3_userprofile_rejects_with_four_errors :
    Pyd.UserProfile.validate "ab" "invalid-email" "123" 200 =
      Except.error
        [Pyd.FieldError.mk "username" Pyd.ErrKind.string_too_short (Pyd.InputVal.s "ab"),
         Pyd.FieldError.mk "email" Pyd.ErrKind.value_error (Pyd.InputVal.s "invalid-email"),
         Pyd.FieldError.mk "password" Pyd.ErrKind.string_too_short (Pyd.InputVal.s "123"),
         Pyd.FieldError.mk "age" Pyd.ErrKind.less_than_equal (Pyd.InputVal.i 200)] := by
  decide

/-- C4: `validate_email` raises its `ValueError` exactly when the string
does not match the regex `^[^@]+@[^@]+\.[^@]+$` and returns the input
unchanged otherwise; `validate_username` raises its `ValueError` exactly
when the string is not alphanumeric and returns the input unchanged
otherwise. -/
theorem C4_validators_raise_iff_check_fails (v : String) :
    (Pyd.validate_email v = Except.ok v ↔ Pyd.EmailShape v.toList) ∧
    (Pyd.validate_email v = Except.error "Invalid email format" ↔
      ¬ Pyd.EmailShape v.toList) ∧
    (Pyd.validate_username v = Except.ok v ↔ Pyd.pyIsAlnum v = true) ∧
    (Pyd.validate_username v = Except.error "Username must be alphanumeric" ↔
      ¬ Pyd.pyIsAlnum v = true) := by
  refine ⟨?_, ?_, ?_, ?_⟩
  · rw [← Pyd.emailMatchL_iff_shape]
    unfold Pyd.validate_email Pyd.emailMatch
    split_ifs with h <;> simp_all [String.toList]
  · rw [← Pyd.emailMatchL_iff_shape]
    unfold Pyd.validate_email Pyd.emailMatch
    split_ifs with h <;> simp_all [String.toList]
  · unfold Pyd.validate_username
    split_ifs with h <;> simp [h]
  · unfold Pyd.validate_username
    split_ifs with h <;> simp [h]

/-- C8: every authored operation (`add` and the two field validators) is
a deterministic pure function: two runs on equal inputs produce
identical results. -/
theorem C8_operations_deterministic (a b a' b' : Int) (v v' : String)
    (hab : a = a' ∧ b = b') (hv : v = v') :
    Agent.add a b = Agent.add a' b' ∧
    Pyd.validate_email v = Pyd.validate_email v' ∧
    Pyd.validate_username v = Pyd.validate_username v' := by
  obtain ⟨rfl, rfl⟩ := hab
  subst hv
  exact ⟨rfl, rfl, rfl⟩

/-- Witness for C8 at the notebook's concrete inputs. -/
theorem C8_operations_deterministic_witness :
    Agent.add 2 2 = Agent.add 2 2 ∧
    Pyd.validate_email "sai" = Pyd.validate_email "sai" ∧
    Pyd.validate_username "sai" = Pyd.validate_username "sai" :=
  C8_operations_deterministic 2 2 2 2 "sai" "sai" ⟨rfl, rfl⟩ rfl

/-- C9: the `add_messages` reducer annotated on the `messages` key
appends a node's new message rather than overriding the list: the
reduced list is the existing list followed by the new message, and every
existing message is preserved unchanged in content and order. -/
theorem C9_add_messages_appends (ms : List Agent.Message) (m : Agent.Message) :
    Agent.add_messages ms m = ms ++ [m] ∧
    (Agent.State.mk ms).applyUpdate m = Agent.State.mk (ms ++ [m]) ∧
    (Agent.add_messages ms m).take ms.length = ms ∧
    (Agent.add_messages ms m).getLast? = some m := by
  refine ⟨rfl, rfl, ?_, ?_⟩
  · exact List.take_left ms [m]
  · exact List.getLast?_concat ms

/-- C5: every `UserProfile` admitted by validation satisfies all the
declared field constraints — username length between 3 and 20 and
alphanumeric, password length at least 8, age between 13 and 120
inclusive, email of the declared regex shape — and construction succeeds
exactly when the input satisfies them, so it fails for any input
violating one. -/
theorem C5_admitted_profiles_satisfy_constraints (u e p : String) (a : Int) :
    (∀ prof : Pyd.UserProfile, Pyd.UserProfile.validate u e p a = Except.ok prof →
      prof = Pyd.UserProfile.mk u e p a ∧
      3 ≤ prof.username.length ∧ prof.username.length ≤ 20 ∧
      Pyd.pyIsAlnum prof.username = true ∧ Pyd.EmailShape prof.email.toList ∧
      8 ≤ prof.password.length ∧ 13 ≤ prof.age ∧ prof.age ≤ 120) ∧
    (Pyd.UserProfile.validate u e p a = Except.ok (Pyd.UserProfile.mk u e p a) ↔
      (3 ≤ u.length ∧ u.length ≤ 20 ∧ Pyd.pyIsAlnum u = true ∧
       Pyd.EmailShape e.toList ∧ 8 ≤ p.length ∧ 13 ≤ a ∧ a ≤ 120)) := by
  constructor
  · intro prof h
    obtain ⟨rfl, h3, h20, hal, hem, hp8, h13, h120⟩ :=
      (Pyd.validate_eq_ok u e p a prof).mp h
    exact ⟨rfl, h3, h20, hal,
      (Pyd.emailMatchL_iff_shape _).mp (by simpa [Pyd.emailMatch] using hem),
      hp8, h13, h120⟩
  · rw [Pyd.validate_eq_ok]
    constructor
    · rintro ⟨-, h3, h20, hal, hem, hp8, h13, h120⟩
      exact ⟨h3, h20, hal,
        (Pyd.emailMatchL_iff_shape _).mp (by simpa [Pyd.emailMatch] using hem),
        hp8, h13, h120⟩
    · rintro ⟨h3, h20, hal, hem, hp8, h13, h120⟩
      exact ⟨rfl, h3, h20, hal,
        by simpa [Pyd.emailMatch] using (Pyd.emailMatchL_iff_shape _).mpr hem,
        hp8, h13, h120⟩

/-- Witness for C5: a concrete accepted construction. -/
theorem C5_admitted_profiles_satisfy_constraints_witness :
    Pyd.UserProfile.validate "sai" "a@b.c" "secret123" 30 =
      Except.ok (Pyd.UserProfile.mk "sai" "a@b.c" "secret123" 30) :=
  (C5_admitted_profiles_satisfy_constraints "sai" "a@b.c" "secret123" 30).2.mpr
    ⟨by decide, by decide, by decide,
     (Pyd.emailMatchL_iff_shape _).mp (by decide), by decide, by decide, by decide⟩

/-- C6: the compiled agent graph has exactly the two authored nodes
`llm_tool` and `tools`, an unconditional edge from `START` to
`llm_tool`, exactly one conditional edge — out of `llm_tool`, routed by
a function whose only targets are `tools` and `END` — and an
unconditional edge from `tools` to `END`. -/
theorem C6_graph_topology :
    Agent.graph_builder.nodes = ["llm_tool", "tools"] ∧
    Agent.graph_builder.edges = [(Agent.START, "llm_tool"), ("tools", Agent.END)] ∧
    ∃ f, Agent.graph_builder.branches = [("llm_tool", f)] ∧
      ∀ s : Agent.State, f s = "tools" ∨ f s = Agent.END := by
  refine ⟨rfl, rfl, Agent.tools_condition, rfl, ?_⟩
  intro s
  cases hm : s.messages.getLast? with
  | none => right; simp [Agent.tools_condition, hm]
  | some m =>
    cases m with
    | human c n => right; simp [Agent.tools_condition, hm]
    | ai c n tcs =>
      by_cases h : 0 < tcs.length
      · left; simp [Agent.tools_condition, hm, h]
      · right; simp [Agent.tools_condition, hm, h]
    | tool c i => right; simp [Agent.tools_condition, hm]

/-- C7: in the nested `Employee` construction with the notebook's
literal arguments, the plain dict passed for `company` is validated
recursively: construction succeeds exactly when the dict satisfies the
`Company` schema (whose `address` key is in turn validated against the
nested `Address` schema), the admitted instance holds the nested model
instance, and the omitted `home_address` defaults to `None`. -/
theorem C7_nested_validation (d : Pyd.Value) :
    ((Nested.Employee.validate (some (Pyd.Value.str "Alice"))
        (some (Pyd.Value.str "Developer")) (some (Pyd.Value.int 75000))
        (some d) Option.none).isOk = (Nested.Company.validate d).isOk) ∧
    (∀ c : Nested.Company, Nested.Company.validate d = Except.ok c →
      Nested.Employee.validate (some (Pyd.Value.str "Alice"))
          (some (Pyd.Value.str "Developer")) (some (Pyd.Value.int 75000))
          (some d) Option.none =
        Except.ok (Nested.Employee.mk "Alice" "Developer" ((75000 : Int) : Rat)
          c Option.none)) := by
  rcases h : Nested.Company.validate d with err | c
  · constructor
    · simp only [Nested.Employee.validate, Pyd.requiredField, h]
      rfl
    · intro c hc
      simp at hc
  · constructor
    · simp only [Nested.Employee.validate, Pyd.requiredField, h]
      rfl
    · intro c' hc
      injection hc with hc
      subst hc
      simp only [Nested.Employee.validate, Pyd.requiredField, h]
      rfl

/-- Witness for C7: the notebook's `company_data` dict is accepted and
produces the nested `Company` and `Address` instances. -/
theorem C7_nested_validation_witness :
    Nested.Employee.validate (some (Pyd.Value.str "Alice"))
        (some (Pyd.Value.str "Developer")) (some (Pyd.Value.int 75000))
        (some Nested.company_data) Option.none =
      Except.ok (Nested.Employee.mk "Alice" "Developer" ((75000 : Int) : Rat)
        (Nested.Company.mk "Tech Corp"
          (Nested.Address.mk "123 Tech St" "San Francisco" "USA" "94105")
          ["Alice", "Bob", "Charlie"])
        Option.none) :=
  (C7_nested_validation Nested.company_data).2
    (Nested.Company.mk "Tech Corp"
      (Nested.Address.mk "123 Tech St" "San Francisco" "USA" "94105")
      ["Alice", "Bob", "Charlie"])
    (by rfl)

/-- C10: the first `Employee` constructed with only `id`, `name` and
`department` gets `salary = None` and `is_active = True` by default;
supplied values override the defaults; and a supplied integer salary is
coerced to the numerically equal float (`30000` becomes `30000.0`). -/
theorem C10_employee_defaults_and_coercion :
    (Opt.Employee.validate (some (Pyd.Value.int 1)) (some (Pyd.Value.str "john"))
        (some (Pyd.Value.str "IT")) Option.none Option.none =
      Except.ok (Opt.Employee.mk 1 "john" "IT" Option.none (some true))) ∧
    (Opt.Employee.validate (some (Pyd.Value.int 2)) (some (Pyd.Value.str "Wick"))
        (some (Pyd.Value.str "Hr")) (some (Pyd.Value.int 30000))
        (some (Pyd.Value.bool false)) =
      Except.ok (Opt.Employee.mk 2 "Wick" "Hr" (some ((30000 : Int) : Rat))
        (some false))) ∧
    ((30000 : Int) : Rat) = (30000 : Rat) ∧
    (∀ q : Rat, ∀ b : Bool,
      Opt.Employee.validate (some (Pyd.Value.int 1)) (some (Pyd.Value.str "john"))
          (some (Pyd.Value.str "IT")) (some (Pyd.Value.float q))
          (some (Pyd.Value.bool b)) =
        Except.ok (Opt.Employee.mk 1 "john" "IT" (some q) (some b))) := by
  refine ⟨rfl, rfl, by norm_num, fun q b => rfl⟩

/-- Witness for C4: on the concrete rejected email and the accepted
username the validators behave as the iff predicts. -/
theorem C4_validators_raise_iff_check_fails_witness :
    Pyd.validate_username "sai" = Except.ok "sai" ∧
    Pyd.validate_email "invalid-email" = Except.error "Invalid email format" :=
  ⟨(C4_validators_raise_iff_check_fails "sai").2.2.1.mpr (by decide),
   (C4_validators_raise_iff_check_fails "invalid-email").2.1.mpr
     (fun hs => by
       have := (Pyd.emailMatchL_iff_shape _).mpr hs
       exact absurd this (by decide))⟩
